import Mathlib

/-!
Shallow embedding of the pre-trade validation and order-construction
pipeline of TradeBot (bot.py, class BasicBot, method place_order,
lines 136-248), together with proofs of the specification's claims.

Modelling conventions:
* Python floats are modelled as exact rationals.
* Python string slicing s[:k] and s[j:] (with possibly negative indices)
  is modelled by pySliceTo / pySliceFrom below, with Python's
  negative-index normalization.
* str.upper() is modelled as ASCII uppercasing (pyUpper), character by
  character, which agrees with Python on the ASCII symbols, sides and
  order types the bot handles.
* Each raise-site of place_order becomes a constructor of OrderError;
  the TypeError Python raises at line 173 when a BUY non-MARKET order
  has price None (quantity * None) is the constructor noneTypeError.
* Network activity is made observable: every call the pipeline makes on
  the Binance client is recorded, in order, in a list of GatewayCall
  values returned next to the result.
-/

namespace TradeBot

/-- Python s[:k] for an int k: a negative k counts from the end
(k + len), and the result is clamped to the string. -/
def pySliceTo (s : String) (k : Int) : String :=
  let n : Int := s.data.length
  let k' : Int := if k < 0 then k + n else k
  ⟨s.data.take k'.toNat⟩

/-- Python s[j:] for an int j: a negative j counts from the end
(j + len), and the result is clamped to the string. -/
def pySliceFrom (s : String) (j : Int) : String :=
  let n : Int := s.data.length
  let j' : Int := if j < 0 then j + n else j
  ⟨s.data.drop j'.toNat⟩

/-- Python s.endswith(t): the last len(t) characters of s equal t. -/
def pyEndsWith (s t : String) : Bool :=
  decide (s.data.drop (s.data.length - t.data.length) = t.data)

/-- Python s.upper() restricted to ASCII case mapping: uppercase every
character of the string. -/
def pyUpper (s : String) : String :=
  ⟨s.data.map Char.toUpper⟩

/-- The string with its last n characters removed.  This is the
specification-side reading of "symbol with the last n characters
removed" (symbol[:-n] for a symbol of length at least n), used to
compare the implemented resolver against the spec's words. -/
def dropLast (s : String) (n : Nat) : String :=
  ⟨s.data.take (s.data.length - n)⟩

/-- One entry of the account balance list returned by get_account:
an asset name with its free and locked amounts (bot.py lines 161-164
read only the free amount during validation). -/
structure Balance where
  asset : String
  free : ℚ
  locked : ℚ
  deriving DecidableEq

/-- The state of the exchange as seen through the Binance client during
one validation pass: the account's balance list (get_account) and the
last-traded price per symbol (get_symbol_ticker). -/
structure Gateway where
  balances : List Balance
  price : String → ℚ

/-- The error raised by each failure site of place_order (bot.py):
* invalidSide: line 144, side not in BUY/SELL;
* invalidOrderType: line 149, order type not one of the six;
* insufficientBalance asset held required suggestedMax baseAsset:
  lines 177-179 (BUY) and 194-196 (SELL);
* priceDeviation price marketPrice minPrice maxPrice: lines 206-208;
* missingPrice: line 221, LIMIT with no price;
* missingStopPrice orderType: line 228, stop-family with no stop price;
* noneTypeError: the TypeError Python raises at line 173 evaluating
  quantity * None for a BUY non-MARKET order with no price. -/
inductive OrderError where
  | invalidSide : OrderError
  | invalidOrderType : OrderError
  | insufficientBalance (asset : String) (held required suggestedMax : ℚ)
      (baseAsset : String) : OrderError
  | priceDeviation (price marketPrice minPrice maxPrice : ℚ) : OrderError
  | missingPrice : OrderError
  | missingStopPrice (orderType : String) : OrderError
  | noneTypeError : OrderError
  deriving DecidableEq

/-- The order_params dict built at bot.py lines 211-229: price,
timeInForce and stopPrice are optional keys, none meaning the key is
absent from the dict. -/
structure OrderParams where
  symbol : String
  side : String
  type : String
  quantity : ℚ
  price : Option ℚ
  timeInForce : Option String
  stopPrice : Option ℚ
  deriving DecidableEq

/-- One call on the Binance client made during place_order:
get_account (line 158/185), get_symbol_ticker via get_current_price
(lines 169/200), create_order (line 237), get_order via
get_order_details (line 243). -/
inductive GatewayCall where
  | getAccount : GatewayCall
  | getPrice (symbol : String) : GatewayCall
  | createOrder (params : OrderParams) : GatewayCall
  | getOrder (symbol : String) : GatewayCall
  deriving DecidableEq

/-- The quote asset of a symbol, bot.py line 154:
symbol[len(symbol)-4:] if symbol.endswith('USDT') else 'USDT'. -/
def resolveQuote (symbol : String) : String :=
  if pyEndsWith symbol "USDT" then
    pySliceFrom symbol ((symbol.data.length : Int) - 4)
  else "USDT"

/-- The base asset of a symbol, bot.py lines 155/182:
symbol[:len(symbol)-4] if symbol.endswith('USDT')
else symbol[:len(symbol)-3]. -/
def resolveBase (symbol : String) : String :=
  if pyEndsWith symbol "USDT" then
    pySliceTo symbol ((symbol.data.length : Int) - 4)
  else
    pySliceTo symbol ((symbol.data.length : Int) - 3)

/-- The free amount of the first balance entry matching the asset,
0 when no entry matches (bot.py lines 159-164 and 186-191: the loop
initializes the amount to 0, takes the first match and breaks, and
reads only the 'free' field). -/
def freeBalanceOf (balances : List Balance) (asset : String) : ℚ :=
  match balances.find? (fun b => b.asset == asset) with
  | some b => b.free
  | none => 0

/-- The BUY branch of the balance check, bot.py lines 152-179, with the
trace of client calls it makes: get_account always, then
get_current_price for MARKET orders.  required is
quantity * marketPrice * 1.01 for MARKET and quantity * price
otherwise; the comparison is against the quote asset's free balance,
and the suggested maximum quantity divides the held balance by the
reference price (market price for MARKET, limit price otherwise). -/
def checkBalanceBuy (g : Gateway) (symbol order_type : String)
    (quantity : ℚ) (price : Option ℚ) :
    Except OrderError Unit × List GatewayCall :=
  let quote_asset := resolveQuote symbol
  let base_asset := resolveBase symbol
  let quote_balance := freeBalanceOf g.balances quote_asset
  if order_type = "MARKET" then
    let current_price := g.price symbol
    let required := quantity * current_price * 1.01
    if quote_balance < required then
      (.error (.insufficientBalance quote_asset quote_balance required
          (quote_balance / current_price) base_asset),
        [.getAccount, .getPrice symbol])
    else
      (.ok (), [.getAccount, .getPrice symbol])
  else
    match price with
    | none => (.error .noneTypeError, [.getAccount])
    | some p =>
      let required := quantity * p
      if quote_balance < required then
        (.error (.insufficientBalance quote_asset quote_balance required
            (quote_balance / p) base_asset),
          [.getAccount])
      else
        (.ok (), [.getAccount])

/-- The SELL branch of the balance check, bot.py lines 180-196:
get_account, then compare the base asset's free balance against the
quantity; on failure the error suggests lowering the quantity to the
held base balance itself. -/
def checkBalanceSell (g : Gateway) (symbol : String) (quantity : ℚ) :
    Except OrderError Unit × List GatewayCall :=
  let base_asset := resolveBase symbol
  let base_balance := freeBalanceOf g.balances base_asset
  if base_balance < quantity then
    (.error (.insufficientBalance base_asset base_balance quantity
        base_balance base_asset),
      [.getAccount])
  else
    (.ok (), [.getAccount])

/-- The price deviation guard, bot.py lines 200-208: deviation is
abs(price - current_price) / current_price * 100, the order is rejected
when deviation > 20 (strict), and the error reports the band
[current_price * 0.8, current_price * 1.2]. -/
def checkPriceDeviation (price current_price : ℚ) :
    Except OrderError Unit :=
  let price_deviation := |price - current_price| / current_price * 100
  if price_deviation > 20 then
    .error (.priceDeviation price current_price
      (current_price * 0.8) (current_price * 1.2))
  else
    .ok ()

/-- The order request builder, bot.py lines 210-229: start from
symbol/side/type/quantity; for LIMIT require a price and attach it with
timeInForce; for the four stop-family types require a stop price and
attach it; MARKET attaches neither. -/
def buildOrderParams (symbol side order_type : String) (quantity : ℚ)
    (price stop_price : Option ℚ) (time_in_force : String) :
    Except OrderError OrderParams :=
  let params : OrderParams :=
    { symbol := symbol, side := side, type := order_type,
      quantity := quantity, price := none, timeInForce := none,
      stopPrice := none }
  let step1 : Except OrderError OrderParams :=
    if order_type = "LIMIT" then
      match price with
      | none => .error .missingPrice
      | some p =>
        .ok { params with
              price := some p
              timeInForce := some time_in_force }
    else .ok params
  match step1 with
  | .error e => .error e
  | .ok params =>
    if order_type = "STOP" ∨ order_type = "STOP_MARKET" ∨
        order_type = "TAKE_PROFIT" ∨ order_type = "TAKE_PROFIT_MARKET" then
      match stop_price with
      | none => .error (.missingStopPrice order_type)
      | some sp => .ok { params with stopPrice := some sp }
    else .ok params

/-- The balance section of place_order, bot.py lines 151-196: the BUY
branch for side BUY (line 152), the SELL branch otherwise. -/
def checkBalanceStage (g : Gateway) (symbol side order_type : String)
    (quantity : ℚ) (price : Option ℚ) :
    Except OrderError Unit × List GatewayCall :=
  if side = "BUY" then
    checkBalanceBuy g symbol order_type quantity price
  else
    checkBalanceSell g symbol quantity

/-- The price deviation section of place_order, bot.py lines 198-208:
it runs only when the order type is LIMIT and a price is present, and
it fetches the current price (get_current_price, line 200) before
applying the guard. -/
def checkPriceDeviationStage (g : Gateway) (symbol order_type : String)
    (price : Option ℚ) :
    Except OrderError Unit × List GatewayCall :=
  if order_type = "LIMIT" then
    match price with
    | some p =>
      (checkPriceDeviation p (g.price symbol), [GatewayCall.getPrice symbol])
    | none => (.ok (), [])
  else
    (.ok (), [])

/-- place_order after the three uppercasing assignments of bot.py
lines 138-140, on the already-normalized symbol, side and order type:
side and type validation (lines 143-149), the balance check
(lines 151-196), the price deviation guard for LIMIT orders with a
price (lines 198-208), the builder (lines 210-229), and finally
create_order followed by get_order_details (lines 237-243).  The
second component records every client call made, in order. -/
def placeOrderUpper (g : Gateway) (symbol side order_type : String)
    (quantity : ℚ) (price stop_price : Option ℚ)
    (time_in_force : String) :
    Except OrderError OrderParams × List GatewayCall :=
  if ¬ (side = "BUY" ∨ side = "SELL") then
    (.error .invalidSide, [])
  else if ¬ (order_type = "MARKET" ∨ order_type = "LIMIT" ∨
      order_type = "STOP" ∨ order_type = "STOP_MARKET" ∨
      order_type = "TAKE_PROFIT" ∨ order_type = "TAKE_PROFIT_MARKET") then
    (.error .invalidOrderType, [])
  else
    match checkBalanceStage g symbol side order_type quantity price with
    | (.error e, tr) => (.error e, tr)
    | (.ok _, tr) =>
      match checkPriceDeviationStage g symbol order_type price with
      | (.error e, tr2) => (.error e, tr ++ tr2)
      | (.ok _, tr2) =>
        match buildOrderParams symbol side order_type quantity price
            stop_price time_in_force with
        | .error e => (.error e, tr ++ tr2)
        | .ok params =>
          (.ok params,
            tr ++ tr2 ++ [GatewayCall.createOrder params,
              GatewayCall.getOrder symbol])

/-- place_order, bot.py lines 136-248: uppercase symbol, side and
order type (lines 138-140), then run the normalized pipeline. -/
def place_order (g : Gateway) (symbol side order_type : String)
    (quantity : ℚ) (price stop_price : Option ℚ)
    (time_in_force : String) :
    Except OrderError OrderParams × List GatewayCall :=
  placeOrderUpper g (pyUpper symbol) (pyUpper side) (pyUpper order_type)
    quantity price stop_price time_in_force

/-- Replace the locked amount of every balance entry, leaving assets
and free amounts unchanged; used to state that the validation never
reads the locked amounts. -/
def setLocked (l : Balance → ℚ) (bs : List Balance) : List Balance :=
  bs.map fun b => { b with locked := l b }

/-- An account holding 10 USDT free, with every ticker at 50000:
the gateway state of the spec's BUY MARKET example. -/
def gBuyExample : Gateway :=
  ⟨[⟨"USDT", 10, 0⟩], fun _ => 50000⟩

/-- An account holding 5 BTC free, with every ticker at 100. -/
def gSellExample : Gateway :=
  ⟨[⟨"BTC", 5, 0⟩], fun _ => 100⟩

/-- An account holding nothing, with every ticker at 1. -/
def gEmptyAccount : Gateway :=
  ⟨[], fun _ => 1⟩

theorem char_toNat_ofNat_valid (n : Nat) (h : n.isValidChar) :
    (Char.ofNat n).toNat = n := by
  unfold Char.ofNat
  rw [dif_pos h]
  rfl

theorem char_toUpper_lower (c : Char) (h : c.toNat ≥ 97 ∧ c.toNat ≤ 122) :
    c.toUpper = Char.ofNat (c.toNat - 32) := by
  simp only [Char.toUpper]
  rw [if_pos h]

theorem char_toUpper_other (c : Char) (h : ¬(c.toNat ≥ 97 ∧ c.toNat ≤ 122)) :
    c.toUpper = c := by
  simp only [Char.toUpper]
  rw [if_neg h]

theorem char_toUpper_idem (c : Char) : c.toUpper.toUpper = c.toUpper := by
  by_cases h : c.toNat ≥ 97 ∧ c.toNat ≤ 122
  · rw [char_toUpper_lower c h]
    apply char_toUpper_other
    rw [char_toNat_ofNat_valid _ (Or.inl (by omega))]
    omega
  · rw [char_toUpper_other c h, char_toUpper_other c h]

theorem pyUpper_idem (s : String) : pyUpper (pyUpper s) = pyUpper s := by
  simp only [pyUpper, List.map_map]
  exact congrArg String.mk
    (List.map_congr_left fun c _ => char_toUpper_idem c)

theorem pyEndsWith_usdt_iff (s : String) :
    pyEndsWith s "USDT" = true ↔
      s.data.drop (s.data.length - 4) = ['U', 'S', 'D', 'T'] := by
  rw [pyEndsWith, decide_eq_true_iff]
  rfl

theorem length_ge_four_of_endsWith (s : String)
    (h : pyEndsWith s "USDT" = true) : 4 ≤ s.data.length := by
  rw [pyEndsWith_usdt_iff] at h
  have hl := congrArg List.length h
  simp only [List.length_drop, List.length_cons, List.length_nil] at hl
  omega

theorem pyEndsWith_of_append (s : String) (l : List Char)
    (h : s.data = l ++ ['U', 'S', 'D', 'T']) :
    pyEndsWith s "USDT" = true := by
  rw [pyEndsWith_usdt_iff, h]
  have hlen : (l ++ ['U', 'S', 'D', 'T']).length - 4 = l.length := by
    rw [List.length_append]
    simp
  rw [hlen, List.drop_left]

theorem resolveQuote_of_endsWith (s : String)
    (h : pyEndsWith s "USDT" = true) : resolveQuote s = "USDT" := by
  have h4 := length_ge_four_of_endsWith s h
  rw [resolveQuote, if_pos h, pySliceFrom]
  rw [if_neg (by omega : ¬((s.data.length : Int) - 4 < 0))]
  have ht : ((s.data.length : Int) - 4).toNat = s.data.length - 4 := by omega
  rw [ht]
  exact congrArg String.mk ((pyEndsWith_usdt_iff s).mp h)

theorem resolveBase_of_endsWith (s : String)
    (h : pyEndsWith s "USDT" = true) : resolveBase s = dropLast s 4 := by
  have h4 := length_ge_four_of_endsWith s h
  rw [resolveBase, if_pos h, pySliceTo, dropLast]
  rw [if_neg (by omega : ¬((s.data.length : Int) - 4 < 0))]
  have ht : ((s.data.length : Int) - 4).toNat = s.data.length - 4 := by omega
  rw [ht]

theorem resolveBase_of_not_endsWith (s : String)
    (h : pyEndsWith s "USDT" = false) (h3 : 3 ≤ s.data.length) :
    resolveBase s = dropLast s 3 := by
  rw [resolveBase, if_neg (by simp [h]), pySliceTo, dropLast]
  rw [if_neg (by omega : ¬((s.data.length : Int) - 3 < 0))]
  have ht : ((s.data.length : Int) - 3).toNat = s.data.length - 3 := by omega
  rw [ht]

theorem freeBalanceOf_setLocked (l : Balance → ℚ) (bs : List Balance)
    (a : String) : freeBalanceOf (setLocked l bs) a = freeBalanceOf bs a := by
  induction bs with
  | nil => rfl
  | cons b rest ih =>
    by_cases h : b.asset == a
    · simp [setLocked, freeBalanceOf, List.find?, h]
    · rw [Bool.not_eq_true] at h
      simp only [setLocked, List.map_cons, freeBalanceOf, List.find?, h]
      simpa [setLocked, freeBalanceOf] using ih

theorem checkBalanceBuy_trace (g : Gateway) (sym ot : String) (q : ℚ)
    (pr : Option ℚ) :
    (checkBalanceBuy g sym ot q pr).2 = [.getAccount] ∨
    (checkBalanceBuy g sym ot q pr).2 = [.getAccount, .getPrice sym] := by
  cases pr with
  | none =>
    simp only [checkBalanceBuy]
    split
    · split <;> simp
    · simp
  | some p =>
    simp only [checkBalanceBuy]
    split
    · split <;> simp
    · split <;> simp

theorem checkBalanceSell_trace (g : Gateway) (sym : String) (q : ℚ) :
    (checkBalanceSell g sym q).2 = [.getAccount] := by
  simp only [checkBalanceSell]
  split <;> rfl

theorem checkBalanceStage_trace (g : Gateway) (sym side ot : String)
    (q : ℚ) (pr : Option ℚ) :
    (checkBalanceStage g sym side ot q pr).2 = [.getAccount] ∨
    (checkBalanceStage g sym side ot q pr).2 =
      [.getAccount, .getPrice sym] := by
  unfold checkBalanceStage
  split
  · exact checkBalanceBuy_trace g sym ot q pr
  · left
    exact checkBalanceSell_trace g sym q

theorem checkPriceDeviationStage_trace (g : Gateway) (sym ot : String)
    (pr : Option ℚ) :
    (checkPriceDeviationStage g sym ot pr).2 = [] ∨
    (checkPriceDeviationStage g sym ot pr).2 = [.getPrice sym] := by
  cases pr with
  | none =>
    simp only [checkPriceDeviationStage]
    split <;> simp
  | some p =>
    simp only [checkPriceDeviationStage]
    split <;> simp

theorem placeOrderUpper_error_no_create (g : Gateway) (sym side ot : String)
    (q : ℚ) (pr sp : Option ℚ) (tif : String) (e : OrderError)
    (params : OrderParams)
    (h : (placeOrderUpper g sym side ot q pr sp tif).1 = .error e) :
    GatewayCall.createOrder params ∉
      (placeOrderUpper g sym side ot q pr sp tif).2 := by
  by_cases h1 : side = "BUY" ∨ side = "SELL"
  · by_cases h2 : ot = "MARKET" ∨ ot = "LIMIT" ∨ ot = "STOP" ∨
        ot = "STOP_MARKET" ∨ ot = "TAKE_PROFIT" ∨ ot = "TAKE_PROFIT_MARKET"
    · have hbal := checkBalanceStage_trace g sym side ot q pr
      have hdev := checkPriceDeviationStage_trace g sym ot pr
      rcases hxb : checkBalanceStage g sym side ot q pr with ⟨rb, trb⟩
      rw [hxb] at hbal
      dsimp only at hbal
      cases rb with
      | error eb =>
        have he : placeOrderUpper g sym side ot q pr sp tif =
            (.error eb, trb) := by
          unfold placeOrderUpper
          rw [if_neg (not_not_intro h1), if_neg (not_not_intro h2), hxb]
        rw [he]
        rcases hbal with hb | hb <;> simp [hb]
      | ok u =>
        rcases hxd : checkPriceDeviationStage g sym ot pr with ⟨rd, trd⟩
        rw [hxd] at hdev
        dsimp only at hdev
        cases rd with
        | error ed =>
          have he : placeOrderUpper g sym side ot q pr sp tif =
              (.error ed, trb ++ trd) := by
            unfold placeOrderUpper
            rw [if_neg (not_not_intro h1), if_neg (not_not_intro h2), hxb,
              hxd]
          rw [he]
          rcases hbal with hb | hb <;> rcases hdev with hd | hd <;>
            simp [hb, hd]
        | ok v =>
          cases hxc : buildOrderParams sym side ot q pr sp tif with
          | error ec =>
            have he : placeOrderUpper g sym side ot q pr sp tif =
                (.error ec, trb ++ trd) := by
              unfold placeOrderUpper
              rw [if_neg (not_not_intro h1), if_neg (not_not_intro h2), hxb,
                hxd, hxc]
            rw [he]
            rcases hbal with hb | hb <;> rcases hdev with hd | hd <;>
              simp [hb, hd]
          | ok ps =>
            have he : placeOrderUpper g sym side ot q pr sp tif =
                (.ok ps, trb ++ trd ++
                  [GatewayCall.createOrder ps, GatewayCall.getOrder sym]) := by
              unfold placeOrderUpper
              rw [if_neg (not_not_intro h1), if_neg (not_not_intro h2), hxb,
                hxd, hxc]
            rw [he] at h
            exact absurd h (by simp)
    · have he : placeOrderUpper g sym side ot q pr sp tif =
          (.error .invalidOrderType, []) := by
        unfold placeOrderUpper
        rw [if_neg (not_not_intro h1), if_pos h2]
      rw [he]
      simp
  · have he : placeOrderUpper g sym side ot q pr sp tif =
        (.error .invalidSide, []) := by
      unfold placeOrderUpper
      rw [if_pos h1]
    rw [he]
    simp

/-- C1: for every LIMIT order with a price present, the price
deviation guard computes deviation = |price - marketPrice| /
marketPrice * 100 and rejects with a PriceDeviationError exactly when
deviation > 20 (strict inequality, so a deviation of exactly 20, e.g.
price = 0.8 * marketPrice, is accepted), and on rejection the error
reports the acceptable band [0.8 * marketPrice, 1.2 * marketPrice]. -/
theorem priceDeviationGuard_spec (p m : ℚ) (hm : 0 < m) :
    (checkPriceDeviation p m = .ok () ↔ ¬ |p - m| / m * 100 > 20) ∧
    (|p - m| / m * 100 > 20 →
      checkPriceDeviation p m =
        .error (.priceDeviation p m (m * 0.8) (m * 1.2))) ∧
    checkPriceDeviation (0.8 * m) m = .ok () := by
  refine ⟨?_, ?_, ?_⟩
  · simp only [checkPriceDeviation]
    split
    · next h => simp [h]
    · next h => simp [h]
  · intro h
    simp only [checkPriceDeviation]
    rw [if_pos h]
  · have hm' : m ≠ 0 := ne_of_gt hm
    have h1 : |(0.8 : ℚ) * m - m| = 0.2 * m := by
      rw [show (0.8 : ℚ) * m - m = -(0.2 * m) by ring, abs_neg,
        abs_of_nonneg (by positivity)]
    have h2 : (0.2 : ℚ) * m / m * 100 = 20 := by
      field_simp
      ring
    simp only [checkPriceDeviation, h1, h2]
    norm_num

/-- Witness for priceDeviationGuard_spec: the spec's boundary example,
market price 50000 and limit price 39999.99 (deviation 20.00002
percent, just above the bound), and the exact-20-percent price
0.8 * 50000, which passes. -/
theorem priceDeviationGuard_spec_witness :
    (0 : ℚ) < 50000 ∧
    |(39999.99 : ℚ) - 50000| / 50000 * 100 > 20 ∧
    checkPriceDeviation 39999.99 50000 =
      .error (.priceDeviation 39999.99 50000 (50000 * 0.8)
        (50000 * 1.2)) ∧
    checkPriceDeviation (0.8 * 50000) 50000 = .ok () := by
  have hm : (0 : ℚ) < 50000 := by norm_num
  have hd : |(39999.99 : ℚ) - 50000| / 50000 * 100 > 20 := by
    rw [show |(39999.99 : ℚ) - 50000| = 10000.01 by
      rw [abs_of_nonpos (by norm_num)]
      norm_num]
    norm_num
  exact ⟨hm, hd, (priceDeviationGuard_spec 39999.99 50000 hm).2.1 hd,
    (priceDeviationGuard_spec 39999.99 50000 hm).2.2⟩

/-- C4: building the order request for type LIMIT with price absent
always fails with the InvalidParameterError that a price is required,
and for type MARKET the build always succeeds whatever price or stop
price was supplied, with the result carrying neither a price nor a
stopPrice field (supplied values are silently dropped, not
rejected). -/
theorem buildOrderParams_limit_market_spec (sym side : String) (q : ℚ)
    (pr sp : Option ℚ) (tif : String) :
    buildOrderParams sym side "LIMIT" q none sp tif =
      .error .missingPrice ∧
    buildOrderParams sym side "MARKET" q pr sp tif =
      .ok { symbol := sym, side := side, type := "MARKET", quantity := q,
            price := none, timeInForce := none, stopPrice := none } := by
  constructor
  · simp [buildOrderParams]
  · simp [buildOrderParams]

/-- C10: place_order is case-insensitive in symbol, side and order
type: it behaves identically (same result and same trace of client
calls) on uppercased inputs, because all three are uppercased at the
start of place_order, before any validation or use. -/
theorem place_order_case_insensitive (g : Gateway)
    (sym side ot : String) (q : ℚ) (pr sp : Option ℚ) (tif : String) :
    place_order g sym side ot q pr sp tif =
      place_order g (pyUpper sym) (pyUpper side) (pyUpper ot)
        q pr sp tif := by
  simp only [place_order, pyUpper_idem]

/-- C2: the balance guard.  A BUY requires quantity * marketPrice *
1.01 of the quote asset for MARKET orders and quantity * price for
every non-MARKET order, compared against the quote asset's free
balance; a SELL requires exactly the quantity of the base asset,
compared against the base asset's free balance; in each case the
intent is rejected with an insufficient-balance error exactly when the
free balance is below the required amount, and the locked amounts are
never counted: changing them arbitrarily changes nothing. -/
theorem balanceGuard_spec (g : Gateway) (sym ot ot' : String) (q p : ℚ)
    (pr pr' : Option ℚ) (l : Balance → ℚ) (hot : ot ≠ "MARKET") :
    ((∃ a h r s b, (checkBalanceBuy g sym "MARKET" q pr).1 =
        .error (.insufficientBalance a h r s b)) ↔
      freeBalanceOf g.balances (resolveQuote sym) <
        q * g.price sym * 1.01) ∧
    ((∃ a h r s b, (checkBalanceBuy g sym ot q (some p)).1 =
        .error (.insufficientBalance a h r s b)) ↔
      freeBalanceOf g.balances (resolveQuote sym) < q * p) ∧
    ((∃ a h r s b, (checkBalanceSell g sym q).1 =
        .error (.insufficientBalance a h r s b)) ↔
      freeBalanceOf g.balances (resolveBase sym) < q) ∧
    checkBalanceBuy { g with balances := setLocked l g.balances }
        sym ot' q pr' =
      checkBalanceBuy g sym ot' q pr' ∧
    checkBalanceSell { g with balances := setLocked l g.balances }
        sym q =
      checkBalanceSell g sym q := by
  refine ⟨?_, ?_, ?_, ?_, ?_⟩
  · simp only [checkBalanceBuy]
    split
    · split
      · next hlt => simp [hlt]
      · next hlt => simp [hlt]
    · next hne => exact absurd trivial hne
  · simp only [checkBalanceBuy]
    rw [if_neg hot]
    split
    · next hlt => simp [hlt]
    · next hlt => simp [hlt]
  · simp only [checkBalanceSell]
    split
    · next hlt => simp [hlt]
    · next hlt => simp [hlt]
  · simp only [checkBalanceBuy, freeBalanceOf_setLocked]
  · simp only [checkBalanceSell, freeBalanceOf_setLocked]

/-- Witness for balanceGuard_spec on an empty account, symbol BTCUSDT,
quantity 1, limit price 2. -/
theorem balanceGuard_spec_witness :
    ("LIMIT" : String) ≠ "MARKET" ∧
    (((∃ a h r s b,
        (checkBalanceBuy gEmptyAccount "BTCUSDT" "MARKET" 1 none).1 =
          .error (.insufficientBalance a h r s b)) ↔
      freeBalanceOf gEmptyAccount.balances (resolveQuote "BTCUSDT") <
        1 * gEmptyAccount.price "BTCUSDT" * 1.01) ∧
    ((∃ a h r s b,
        (checkBalanceBuy gEmptyAccount "BTCUSDT" "LIMIT" 1 (some 2)).1 =
          .error (.insufficientBalance a h r s b)) ↔
      freeBalanceOf gEmptyAccount.balances (resolveQuote "BTCUSDT") <
        1 * 2) ∧
    ((∃ a h r s b,
        (checkBalanceSell gEmptyAccount "BTCUSDT" 1).1 =
          .error (.insufficientBalance a h r s b)) ↔
      freeBalanceOf gEmptyAccount.balances (resolveBase "BTCUSDT") < 1) ∧
    checkBalanceBuy
        { gEmptyAccount with
          balances := setLocked (fun _ => 3) gEmptyAccount.balances }
        "BTCUSDT" "STOP" 1 none =
      checkBalanceBuy gEmptyAccount "BTCUSDT" "STOP" 1 none ∧
    checkBalanceSell
        { gEmptyAccount with
          balances := setLocked (fun _ => 3) gEmptyAccount.balances }
        "BTCUSDT" 1 =
      checkBalanceSell gEmptyAccount "BTCUSDT" 1) :=
  ⟨by simp,
    balanceGuard_spec gEmptyAccount "BTCUSDT" "LIMIT" "STOP" 1 2 none none
      (fun _ => 3) (by simp)⟩

/-- Evaluation of the spec's failing BUY MARKET example: quote balance
10 USDT, market price 50000, quantity 0.001; the required amount is
50.5 and the rejection happens after get_account and the ticker fetch,
with suggested maximum quantity 10 / 50000 = 1/5000. -/
theorem place_order_buyExample_eval :
    place_order gBuyExample "BTCUSDT" "BUY" "MARKET" (1/1000) none none
        "GTC" =
      (.error (.insufficientBalance "USDT" 10 (101/2) (1/5000) "BTC"),
        [.getAccount, .getPrice "BTCUSDT"]) := by
  have e1 : pyUpper "BTCUSDT" = "BTCUSDT" := rfl
  have e2 : pyUpper "BUY" = "BUY" := rfl
  have e3 : pyUpper "MARKET" = "MARKET" := rfl
  have hq : resolveQuote "BTCUSDT" = "USDT" := by decide
  have hb : resolveBase "BTCUSDT" = "BTC" := by decide
  have hf : freeBalanceOf gBuyExample.balances "USDT" = 10 := rfl
  have hp : gBuyExample.price "BTCUSDT" = 50000 := rfl
  rw [place_order, e1, e2, e3]
  rw [placeOrderUpper, checkBalanceStage, checkBalanceBuy, hq, hb, hf, hp]
  norm_num

/-- C9: the pipeline runs the balance check strictly before the
price-deviation check.  For a LIMIT intent that violates both the
balance condition and the 20 percent deviation bound (hypothesis
_hdev), the error raised is the insufficient-balance one, and the call
trace is exactly [get_account]: the deviation check, whose first step
is the ticker fetch, was never performed because the balance check had
not passed. -/
theorem balance_before_deviation (g : Gateway) (sym : String)
    (q p : ℚ) (sp : Option ℚ) (tif : String)
    (_hdev : |p - g.price (pyUpper sym)| / g.price (pyUpper sym) * 100 >
      20) :
    (freeBalanceOf g.balances (resolveQuote (pyUpper sym)) < q * p →
      place_order g sym "BUY" "LIMIT" q (some p) sp tif =
        (.error (.insufficientBalance (resolveQuote (pyUpper sym))
            (freeBalanceOf g.balances (resolveQuote (pyUpper sym)))
            (q * p)
            (freeBalanceOf g.balances (resolveQuote (pyUpper sym)) / p)
            (resolveBase (pyUpper sym))),
          [.getAccount])) ∧
    (freeBalanceOf g.balances (resolveBase (pyUpper sym)) < q →
      place_order g sym "SELL" "LIMIT" q (some p) sp tif =
        (.error (.insufficientBalance (resolveBase (pyUpper sym))
            (freeBalanceOf g.balances (resolveBase (pyUpper sym))) q
            (freeBalanceOf g.balances (resolveBase (pyUpper sym)))
            (resolveBase (pyUpper sym))),
          [.getAccount])) := by
  constructor
  · intro hbal
    have e2 : pyUpper "BUY" = "BUY" := rfl
    have e3 : pyUpper "LIMIT" = "LIMIT" := rfl
    rw [place_order, e2, e3]
    have hcb : checkBalanceStage g (pyUpper sym) "BUY" "LIMIT" q
        (some p) =
        (.error (.insufficientBalance (resolveQuote (pyUpper sym))
            (freeBalanceOf g.balances (resolveQuote (pyUpper sym)))
            (q * p)
            (freeBalanceOf g.balances (resolveQuote (pyUpper sym)) / p)
            (resolveBase (pyUpper sym))),
          [.getAccount]) := by
      rw [checkBalanceStage, if_pos rfl, checkBalanceBuy]
      rw [if_neg (by simp : ¬("LIMIT" : String) = "MARKET"),
        if_pos hbal]
    rw [placeOrderUpper, hcb]
    rw [if_neg (not_not_intro (Or.inl rfl)),
      if_neg (not_not_intro (Or.inr (Or.inl rfl)))]
  · intro hbal
    have e2 : pyUpper "SELL" = "SELL" := rfl
    have e3 : pyUpper "LIMIT" = "LIMIT" := rfl
    rw [place_order, e2, e3]
    have hcs : checkBalanceStage g (pyUpper sym) "SELL" "LIMIT" q
        (some p) =
        (.error (.insufficientBalance (resolveBase (pyUpper sym))
            (freeBalanceOf g.balances (resolveBase (pyUpper sym))) q
            (freeBalanceOf g.balances (resolveBase (pyUpper sym)))
            (resolveBase (pyUpper sym))),
          [.getAccount]) := by
      rw [checkBalanceStage,
        if_neg (by simp : ¬("SELL" : String) = "BUY"), checkBalanceSell]
      rw [if_pos hbal]
    rw [placeOrderUpper, hcs]
    rw [if_neg (not_not_intro (Or.inr rfl)),
      if_neg (not_not_intro (Or.inr (Or.inl rfl)))]

/-- Witness for balance_before_deviation: an account with 5 BTC free
and market price 100, SELL LIMIT of 10 BTC at limit price 2 (deviation
98 percent, balance short by 5). -/
theorem balance_before_deviation_witness :
    |(2 : ℚ) - gSellExample.price (pyUpper "BTCUSDT")| /
        gSellExample.price (pyUpper "BTCUSDT") * 100 > 20 ∧
    freeBalanceOf gSellExample.balances (resolveBase (pyUpper "BTCUSDT"))
        < 10 ∧
    freeBalanceOf gSellExample.balances
        (resolveQuote (pyUpper "BTCUSDT")) < 10 * 2 ∧
    place_order gSellExample "BTCUSDT" "SELL" "LIMIT" 10 (some 2) none
        "GTC" =
      (.error (.insufficientBalance (resolveBase (pyUpper "BTCUSDT"))
          (freeBalanceOf gSellExample.balances
            (resolveBase (pyUpper "BTCUSDT"))) 10
          (freeBalanceOf gSellExample.balances
            (resolveBase (pyUpper "BTCUSDT")))
          (resolveBase (pyUpper "BTCUSDT"))),
        [.getAccount]) ∧
    place_order gSellExample "BTCUSDT" "BUY" "LIMIT" 10 (some 2) none
        "GTC" =
      (.error (.insufficientBalance (resolveQuote (pyUpper "BTCUSDT"))
          (freeBalanceOf gSellExample.balances
            (resolveQuote (pyUpper "BTCUSDT"))) (10 * 2)
          (freeBalanceOf gSellExample.balances
            (resolveQuote (pyUpper "BTCUSDT")) / 2)
          (resolveBase (pyUpper "BTCUSDT"))),
        [.getAccount]) := by
  have h1 : |(2 : ℚ) - gSellExample.price (pyUpper "BTCUSDT")| /
      gSellExample.price (pyUpper "BTCUSDT") * 100 > 20 := by
    norm_num [gSellExample]
  have h2 : freeBalanceOf gSellExample.balances
      (resolveBase (pyUpper "BTCUSDT")) < 10 := by
    have : resolveBase (pyUpper "BTCUSDT") = "BTC" := by decide
    rw [this]
    norm_num [gSellExample, freeBalanceOf, List.find?]
  have h3 : freeBalanceOf gSellExample.balances
      (resolveQuote (pyUpper "BTCUSDT")) < 10 * 2 := by
    have e : resolveQuote (pyUpper "BTCUSDT") = "USDT" := by decide
    rw [e, show freeBalanceOf gSellExample.balances "USDT" = 0 from rfl]
    norm_num
  exact ⟨h1, h2, h3,
    (balance_before_deviation gSellExample "BTCUSDT" 10 2 none "GTC"
      h1).2 h2,
    (balance_before_deviation gSellExample "BTCUSDT" 10 2 none "GTC"
      h1).1 h3⟩

/-- C8 counterexample: a BUY MARKET intent rejected for insufficient
balance has a non-empty trace of network calls (get_account, then the
ticker fetch) made before the validation error was raised, so the
claim that every validation error is raised before any network call is
false at this input. -/
theorem validation_error_after_network_calls :
    place_order gBuyExample "BTCUSDT" "BUY" "MARKET" (1/1000) none none
        "GTC" =
      (.error (.insufficientBalance "USDT" 10 (101/2) (1/5000) "BTC"),
        [.getAccount, .getPrice "BTCUSDT"]) ∧
    (place_order gBuyExample "BTCUSDT" "BUY" "MARKET" (1/1000) none none
        "GTC").2 ≠ [] := by
  refine ⟨place_order_buyExample_eval, ?_⟩
  rw [place_order_buyExample_eval]
  simp

/-- C8 (amended): whenever place_order rejects an intent with any of
its locally raised errors, the order is never submitted: the trace of
client calls contains no create_order call.  (Balance and deviation
errors do follow read-only get_account / ticker fetches, which is what
refutes the stronger reading of the claim.) -/
theorem no_submission_on_validation_error (g : Gateway)
    (sym side ot : String) (q : ℚ) (pr sp : Option ℚ) (tif : String)
    (e : OrderError) (params : OrderParams)
    (h : (place_order g sym side ot q pr sp tif).1 = .error e) :
    GatewayCall.createOrder params ∉
      (place_order g sym side ot q pr sp tif).2 := by
  rw [place_order] at h ⊢
  exact placeOrderUpper_error_no_create g (pyUpper sym) (pyUpper side)
    (pyUpper ot) q pr sp tif e params h

/-- Witness for no_submission_on_validation_error: an invalid side is
rejected and nothing is submitted. -/
theorem no_submission_on_validation_error_witness :
    (place_order gEmptyAccount "BTCUSDT" "HOLD" "MARKET" 1 none none
        "GTC").1 =
      .error .invalidSide ∧
    GatewayCall.createOrder
        { symbol := "BTCUSDT", side := "BUY", type := "MARKET",
          quantity := 1, price := none, timeInForce := none,
          stopPrice := none } ∉
      (place_order gEmptyAccount "BTCUSDT" "HOLD" "MARKET" 1 none none
        "GTC").2 :=
  ⟨rfl,
    no_submission_on_validation_error gEmptyAccount "BTCUSDT" "HOLD"
      "MARKET" 1 none none "GTC" .invalidSide
      { symbol := "BTCUSDT", side := "BUY", type := "MARKET",
        quantity := 1, price := none, timeInForce := none,
        stopPrice := none } rfl⟩

/-- C3 counterexample: a SELL LIMIT intent (5 BTC free, selling 10 at
limit price 2) is rejected with a suggested maximum quantity of 5, the
held balance itself; the claim's heldBalance / referencePrice would be
5 / 2, which differs. -/
theorem suggestedMax_sell_counterexample :
    place_order gSellExample "BTCUSDT" "SELL" "LIMIT" 10 (some 2) none
        "GTC" =
      (.error (.insufficientBalance "BTC" 5 10 5 "BTC"),
        [.getAccount]) ∧
    (5 : ℚ) ≠ 5 / 2 := by
  constructor
  · have e1 : pyUpper "BTCUSDT" = "BTCUSDT" := rfl
    have e2 : pyUpper "SELL" = "SELL" := rfl
    have e3 : pyUpper "LIMIT" = "LIMIT" := rfl
    have hb : resolveBase "BTCUSDT" = "BTC" := by decide
    have hf : freeBalanceOf gSellExample.balances "BTC" = 5 := rfl
    rw [place_order, e1, e2, e3]
    have hcs : checkBalanceStage gSellExample "BTCUSDT" "SELL" "LIMIT"
        10 (some 2) =
        (.error (.insufficientBalance "BTC" 5 10 5 "BTC"),
          [.getAccount]) := by
      rw [checkBalanceStage, if_neg (by simp : ¬("SELL" : String) = "BUY"),
        checkBalanceSell, hb, hf]
      norm_num
    rw [placeOrderUpper, hcs]
    rw [if_neg (not_not_intro (Or.inr rfl)),
      if_neg (not_not_intro (Or.inr (Or.inl rfl)))]
  · norm_num

/-- C3 (amended): on a BUY rejection the error carries the asset held,
the amount held, the amount required and a suggested maximum quantity
equal to heldBalance / referencePrice (the market price for MARKET,
the limit price otherwise); on a SELL rejection the suggested maximum
is the held base balance itself, with no division; in the spec's BUY
MARKET example (quote balance 10, market price 50000, quantity 0.001)
the suggested maximum is exactly 10 / 50000 = 0.0002 (the market
price, not the buffered price, is the divisor). -/
theorem insufficientBalance_error_reporting (g : Gateway)
    (sym ot : String) (q p : ℚ) (pr : Option ℚ) :
    (freeBalanceOf g.balances (resolveQuote sym) <
        q * g.price sym * 1.01 →
      (checkBalanceBuy g sym "MARKET" q pr).1 =
        .error (.insufficientBalance (resolveQuote sym)
          (freeBalanceOf g.balances (resolveQuote sym))
          (q * g.price sym * 1.01)
          (freeBalanceOf g.balances (resolveQuote sym) / g.price sym)
          (resolveBase sym))) ∧
    (ot ≠ "MARKET" →
      freeBalanceOf g.balances (resolveQuote sym) < q * p →
      (checkBalanceBuy g sym ot q (some p)).1 =
        .error (.insufficientBalance (resolveQuote sym)
          (freeBalanceOf g.balances (resolveQuote sym)) (q * p)
          (freeBalanceOf g.balances (resolveQuote sym) / p)
          (resolveBase sym))) ∧
    (freeBalanceOf g.balances (resolveBase sym) < q →
      (checkBalanceSell g sym q).1 =
        .error (.insufficientBalance (resolveBase sym)
          (freeBalanceOf g.balances (resolveBase sym)) q
          (freeBalanceOf g.balances (resolveBase sym))
          (resolveBase sym))) ∧
    (place_order gBuyExample "BTCUSDT" "BUY" "MARKET" (1/1000) none
        none "GTC" =
      (.error (.insufficientBalance "USDT" 10 (101/2) (1/5000) "BTC"),
        [.getAccount, .getPrice "BTCUSDT"]) ∧
      (1/5000 : ℚ) = 0.0002) := by
  refine ⟨?_, ?_, ?_, place_order_buyExample_eval, by norm_num⟩
  · intro h
    simp only [checkBalanceBuy]
    rw [if_pos h]
    rfl
  · intro hot h
    simp only [checkBalanceBuy]
    rw [if_neg hot]
    split
    · rfl
    · next hlt => exact absurd h hlt
  · intro h
    simp only [checkBalanceSell]
    split
    · rfl
    · next hlt => exact absurd h hlt

/-- Witness for insufficientBalance_error_reporting: empty account,
SELL of quantity 1. -/
theorem insufficientBalance_error_reporting_witness :
    freeBalanceOf gEmptyAccount.balances (resolveBase "BTCUSDT") < 1 ∧
    (checkBalanceSell gEmptyAccount "BTCUSDT" 1).1 =
      .error (.insufficientBalance (resolveBase "BTCUSDT")
        (freeBalanceOf gEmptyAccount.balances (resolveBase "BTCUSDT")) 1
        (freeBalanceOf gEmptyAccount.balances (resolveBase "BTCUSDT"))
        (resolveBase "BTCUSDT")) := by
  have h : freeBalanceOf gEmptyAccount.balances (resolveBase "BTCUSDT")
      < 1 := by
    norm_num [gEmptyAccount, freeBalanceOf, List.find?]
  exact ⟨h,
    (insufficientBalance_error_reporting gEmptyAccount "BTCUSDT" "LIMIT"
      1 2 none).2.2.1 h⟩

/-- C5 counterexample: the two-character symbol "AB" does not end in
"USDT", and the code's slice symbol[:len(symbol)-3] is symbol[:-1] in
Python, which keeps the first character: baseAsset is "A", not the
empty string that removing the last three characters would leave, so
the claim is false at the symbol "AB". -/
theorem symbolResolver_short_symbol_counterexample :
    pyEndsWith "AB" "USDT" = false ∧ resolveBase "AB" = "A" ∧
    dropLast "AB" 3 = "" ∧ resolveBase "AB" ≠ dropLast "AB" 3 := by
  decide

/-- C5 (amended): for every symbol ending in "USDT" the resolver
returns quoteAsset "USDT" (its last four characters) and baseAsset the
symbol with the last four characters removed; for every symbol of
length at least three not ending in "USDT" it returns quoteAsset
"USDT" and baseAsset the symbol with the last three characters removed
(for shorter symbols Python's negative slice index wraps around
instead); in particular "BTCETH" yields baseAsset "BTC" and quoteAsset
"USDT". -/
theorem symbolResolver_spec (s : String) :
    (pyEndsWith s "USDT" = true →
      resolveQuote s = "USDT" ∧ resolveBase s = dropLast s 4) ∧
    (pyEndsWith s "USDT" = false → 3 ≤ s.data.length →
      resolveQuote s = "USDT" ∧ resolveBase s = dropLast s 3) ∧
    (resolveBase "BTCETH" = "BTC" ∧ resolveQuote "BTCETH" = "USDT") := by
  refine ⟨?_, ?_, by decide, by decide⟩
  · intro h
    exact ⟨resolveQuote_of_endsWith s h, resolveBase_of_endsWith s h⟩
  · intro h h3
    refine ⟨?_, resolveBase_of_not_endsWith s h h3⟩
    rw [resolveQuote, if_neg (by simp [h])]

/-- Witness for symbolResolver_spec at "BTCUSDT" and "BTCETH". -/
theorem symbolResolver_spec_witness :
    pyEndsWith "BTCUSDT" "USDT" = true ∧
    (resolveQuote "BTCUSDT" = "USDT" ∧
      resolveBase "BTCUSDT" = dropLast "BTCUSDT" 4) ∧
    pyEndsWith "BTCETH" "USDT" = false ∧
    3 ≤ ("BTCETH" : String).data.length ∧
    (resolveQuote "BTCETH" = "USDT" ∧
      resolveBase "BTCETH" = dropLast "BTCETH" 3) :=
  ⟨by decide, (symbolResolver_spec "BTCUSDT").1 (by decide), by decide,
    by decide, (symbolResolver_spec "BTCETH").2.1 (by decide) (by decide)⟩

/-- C6 counterexample: for "BTCETH" the resolved pair is ("BTC",
"USDT") and the concatenation "BTCUSDT" is not the original symbol,
so baseAsset ++ quoteAsset does not always reconstruct the symbol. -/
theorem assetPair_reconstruct_counterexample :
    resolveBase "BTCETH" ++ resolveQuote "BTCETH" = "BTCUSDT" ∧
    ("BTCUSDT" : String) ≠ "BTCETH" := by
  decide

/-- C6 (amended): concatenating the resolved baseAsset and quoteAsset
reconstructs the original symbol exactly for the symbols that end in
"USDT"; for every other symbol the concatenation ends in "USDT" and
therefore differs from the symbol. -/
theorem assetPair_reconstructs_iff_usdt (s : String) :
    resolveBase s ++ resolveQuote s = s ↔
      pyEndsWith s "USDT" = true := by
  constructor
  · intro hcat
    by_contra hne
    rw [Bool.not_eq_true] at hne
    rw [resolveBase, resolveQuote, if_neg (by simp [hne]),
      if_neg (by simp [hne])] at hcat
    have hdata := congrArg String.data hcat
    rw [String.data_append] at hdata
    have happ : s.data =
        (pySliceTo s ((s.data.length : Int) - 3)).data ++
          ['U', 'S', 'D', 'T'] := by
      conv_lhs => rw [← hdata]
    have := pyEndsWith_of_append s _ happ
    rw [hne] at this
    exact Bool.false_ne_true this
  · intro h
    have hd := (pyEndsWith_usdt_iff s).mp h
    rw [resolveBase_of_endsWith s h, resolveQuote_of_endsWith s h]
    apply String.ext
    rw [String.data_append]
    have hdl : (dropLast s 4).data = s.data.take (s.data.length - 4) :=
      rfl
    rw [hdl, show ("USDT" : String).data = ['U', 'S', 'D', 'T'] from rfl,
      ← hd]
    exact List.take_append_drop _ s.data

/-- C7 counterexample: the resolver does not fail on the empty symbol:
it is total string slicing and produces the asset pair ("", "USDT")
rather than raising any invalid-symbol error. -/
theorem emptySymbol_resolves_counterexample :
    resolveBase "" = "" ∧ resolveQuote "" = "USDT" := by
  decide

/-- C7 (amended): resolving the empty symbol does not fail: it yields
baseAsset "" and quoteAsset "USDT", and place_order carries on into
the balance check: a SELL LIMIT intent on the empty symbol against an
empty account is rejected for insufficient balance of the asset "",
not for an invalid symbol (no invalid-symbol check exists). -/
theorem emptySymbol_pipeline_amended :
    resolveBase "" = "" ∧ resolveQuote "" = "USDT" ∧
    place_order gEmptyAccount "" "SELL" "LIMIT" 1 (some 1) none "GTC" =
      (.error (.insufficientBalance "" 0 1 0 ""), [.getAccount]) := by
  refine ⟨by decide, by decide, ?_⟩
  have e1 : pyUpper "" = "" := rfl
  have e2 : pyUpper "SELL" = "SELL" := rfl
  have e3 : pyUpper "LIMIT" = "LIMIT" := rfl
  have hb : resolveBase "" = "" := by decide
  have hf : freeBalanceOf gEmptyAccount.balances "" = 0 := rfl
  rw [place_order, e1, e2, e3]
  have hcs : checkBalanceStage gEmptyAccount "" "SELL" "LIMIT" 1
      (some 1) =
      (.error (.insufficientBalance "" 0 1 0 ""), [.getAccount]) := by
    rw [checkBalanceStage, if_neg (by simp : ¬("SELL" : String) = "BUY"),
      checkBalanceSell, hb, hf]
    norm_num
  rw [placeOrderUpper, hcs]
  rw [if_neg (not_not_intro (Or.inr rfl)),
    if_neg (not_not_intro (Or.inr (Or.inl rfl)))]

end TradeBot
